import Mathlib

/-!
Verification of the cooler-admin repository: shallow embedding of the
Next.js API route handlers (`src/app/api/**/route.ts`), the database
helpers (`src/lib/db.ts`), the `AnomalyProcessor` resolution payload
builder (`src/components/AnomalyProcessor.tsx`) and the API-requests
page polling state (`src/app/api-requests/page.tsx`), together with
theorems settling the specification claims.

Modelling conventions:

* A JSON value is the inductive `JsonVal`; an HTTP response produced by
  `NextResponse.json(body, { status })` is a `Response` (status + body).
* A nullable request header (`request.headers.get(...)`) is an
  `Option String`; an environment variable (`process.env.X`) likewise.
* JavaScript string truthiness (`s || d`, `!s`) is modelled explicitly:
  the empty string is falsy (`jsOr`, `passwordRejected`).
* A JavaScript exception value is an `Option String`: `some msg` for an
  `Error` with message `msg`, `none` for a thrown non-`Error` value
  (then `error instanceof Error ? error.message : 'Unknown error'`
  yields the default).  An unexpected exception escaping the handler
  body is an extra input `exn : Option (Option String)`; when it is
  `some e` the handler returns what its `catch` block builds from `e`.
* The outcome of an awaited `fetch` / database query is an input of the
  handler (`Except` of exception vs. settled result), since the real
  upstream is outside this repository.
* Handlers that touch the database return, alongside the `Response`,
  the list of SQL statements they issued, so that "performs no database
  operation" is the statement that this list is empty.
-/

/-- JSON values, as serialised by `NextResponse.json`.  Numbers are
modelled as integers (no numeric arithmetic is at stake in any claim). -/
inductive JsonVal where
  | jnull : JsonVal
  | jbool : Bool → JsonVal
  | jnum : Int → JsonVal
  | jstr : String → JsonVal
  | jarr : List JsonVal → JsonVal
  | jobj : List (String × JsonVal) → JsonVal

/-- Field lookup in an association list of JSON object fields. -/
def lookupField : List (String × JsonVal) → String → Option JsonVal
  | [], _ => none
  | (k, v) :: rest, key => if k = key then some v else lookupField rest key

/-- Field access on a JSON value: `some` value for an object that has
the field, `none` otherwise. -/
def JsonVal.getField (j : JsonVal) (key : String) : Option JsonVal :=
  match j with
  | .jobj fields => lookupField fields key
  | _ => none

/-- An HTTP response: status code and JSON body, as produced by
`NextResponse.json(body, { status })` (status 200 when omitted). -/
structure Response where
  status : Nat
  body : JsonVal

/-- JavaScript `o || d` on a nullable string: the default replaces both
`null`/`undefined` and the (falsy) empty string. -/
def jsOr (o : Option String) (d : String) : String :=
  match o with
  | some s => if s.isEmpty then d else s
  | none => d

/-- Message extracted from a caught exception:
`e instanceof Error ? e.message : 'Unknown error'`. -/
def jsErrMsg (e : Option String) : String := e.getD "Unknown error"

/-- Guard `!adminPassword || adminPassword !== expectedPassword` from the
table-clearing routes: rejects an absent header, an empty header (falsy
in JavaScript) and a header different from the expected password. -/
def passwordRejected (adminPassword : Option String) (expected : String) : Bool :=
  match adminPassword with
  | none => true
  | some p => p.isEmpty || p != expected

/-- Guard `!authHeader || authHeader !== 'Bearer Bearit01!'` from the
impersonate and transactions routes. -/
def bearerRejected (authHeader : Option String) : Bool :=
  match authHeader with
  | none => true
  | some a => a.isEmpty || a != "Bearer Bearit01!"

/-- The 401 body `{ success: false, error: "Unauthorized" }` shared by
every gated route. -/
def unauthorizedResponse : Response :=
  ⟨401, .jobj [("success", .jbool false), ("error", .jstr "Unauthorized")]⟩

/-- A handler catch block: status 500 with
`{ success: false, error, details }`, the details being the exception
message (or `'Unknown error'` for a non-`Error` value). -/
def catchResponse (errMsg : String) (e : Option String) : Response :=
  ⟨500, .jobj [("success", .jbool false), ("error", .jstr errMsg),
    ("details", .jstr (jsErrMsg e))]⟩

/-- Whether a `fetch` response is `ok` (status in the range 200-299). -/
def fetchOk (status : Nat) : Bool := 200 ≤ status && status ≤ 299

/-- Result record of `clearTable` in `src/lib/db.ts`. -/
structure ClearResult where
  success : Bool
  rowCount : Nat
  error : Option String
deriving DecidableEq, Repr

/-- Embedding of `clearTable` (`src/lib/db.ts`).  The outcome of the
underlying `query('DELETE FROM ' + tableName)` is an input: `.ok rc`
for a settled query whose `rowCount` is `rc` (`none` models a null
`rowCount`, defaulted by `result.rowCount || 0`), `.error e` for a
query that threw.  The function itself never throws: both branches
return a `ClearResult`. -/
def clearTable (_tableName : String) (outcome : Except (Option String) (Option Nat)) :
    ClearResult :=
  match outcome with
  | .ok rc => { success := true, rowCount := rc.getD 0, error := none }
  | .error e => { success := false, rowCount := 0, error := some (jsErrMsg e) }

/-- JavaScript object property assignment `m[k] = v` on an object viewed
as an ordered association list: an existing key keeps its position and
gets the new value, a new key is appended. -/
def objSet (m : List (String × ClearResult)) (k : String) (v : ClearResult) :
    List (String × ClearResult) :=
  if m.any (fun p => p.1 = k) then
    m.map (fun p => if p.1 = k then (k, v) else p)
  else
    m ++ [(k, v)]

/-- Loop of `clearTables` (`src/lib/db.ts`): for each table name, in
input order, run `clearTable` and store the result under the name.
`outcome i` is the query outcome of the `i`-th clear. -/
def clearTablesGo (outcome : Nat → Except (Option String) (Option Nat)) :
    Nat → List (String × ClearResult) → List String → List (String × ClearResult)
  | _, acc, [] => acc
  | i, acc, n :: rest =>
      clearTablesGo outcome (i + 1) (objSet acc n (clearTable n (outcome i))) rest

/-- Embedding of `clearTables` (`src/lib/db.ts`). -/
def clearTables (names : List String)
    (outcome : Nat → Except (Option String) (Option Nat)) :
    List (String × ClearResult) :=
  clearTablesGo outcome 0 [] names

/-- Configuration of the `pg` connection pool in `src/lib/db.ts`. -/
structure PoolConfig where
  max : Nat
  idleTimeoutMillis : Nat
  connectionTimeoutMillis : Nat

/-- The pool constructed in `src/lib/db.ts`:
`new Pool({ max: 20, idleTimeoutMillis: 30000, connectionTimeoutMillis: 2000 })`. -/
def pool : PoolConfig :=
  { max := 20, idleTimeoutMillis := 30000, connectionTimeoutMillis := 2000 }

/-- JSON rendering of an optional string (`undefined` only arises where
the code never reads it; `none` renders as JSON null). -/
def jsonOfOptStr : Option String → JsonVal
  | some s => .jstr s
  | none => .jnull

/-- Common shape of the four table-clearing routes
(`anomalies/clear`, `transactions/clear`, `transaction-items/clear`,
`submissions/clear`): password gate, then `clearTable` on the route's
table, with route-specific message strings.  Inputs: the
`admin-password` header, the `NEXT_PUBLIC_ADMIN_PASSWORD` environment
variable, the ISO timestamp the handler would render, an unexpected
exception (if any), and the outcome of the DELETE query.  Returns the
response and the list of SQL statements issued. -/
def tableClearDELETE (tableName noun failErr catchErr : String)
    (adminPassword env : Option String) (nowIso : String)
    (exn : Option (Option String)) (db : Except (Option String) (Option Nat)) :
    Response × List String :=
  if passwordRejected adminPassword (jsOr env "admin123") then
    (unauthorizedResponse, [])
  else
    match exn with
    | some e => (catchResponse catchErr e, [])
    | none =>
      let result := clearTable tableName db
      if result.success then
        (⟨200, .jobj [("success", .jbool true),
          ("message", .jstr (noun ++ " cleared successfully. Removed " ++
            toString result.rowCount ++ " rows.")),
          ("timestamp", .jstr nowIso),
          ("rowCount", .jnum (Int.ofNat result.rowCount))]⟩,
         ["DELETE FROM " ++ tableName])
      else
        (⟨500, .jobj [("success", .jbool false), ("error", .jstr failErr),
          ("details", jsonOfOptStr result.error)]⟩,
         ["DELETE FROM " ++ tableName])

/-- DELETE handler of `src/app/api/anomalies/clear/route.ts`. -/
def anomaliesClearDELETE : Option String → Option String → String →
    Option (Option String) → Except (Option String) (Option Nat) →
    Response × List String :=
  tableClearDELETE "anomaly_flags" "Anomaly flags"
    "Failed to clear anomaly flags" "Failed to clear anomalies"

/-- DELETE handler of the transactions clear route. -/
def transactionsClearDELETE : Option String → Option String → String →
    Option (Option String) → Except (Option String) (Option Nat) →
    Response × List String :=
  tableClearDELETE "transactions" "Transactions"
    "Failed to clear transactions" "Failed to clear transactions"

/-- DELETE handler of the transaction-items clear route. -/
def transactionItemsClearDELETE : Option String → Option String → String →
    Option (Option String) → Except (Option String) (Option Nat) →
    Response × List String :=
  tableClearDELETE "transaction_items" "Transaction items"
    "Failed to clear transaction items" "Failed to clear transaction items"

/-- DELETE handler of the submissions clear route. -/
def submissionsClearDELETE : Option String → Option String → String →
    Option (Option String) → Except (Option String) (Option Nat) →
    Response × List String :=
  tableClearDELETE "submissions" "Submissions"
    "Failed to clear submissions" "Failed to clear submissions"

/-- DELETE handler of the integrations clear route: password gate, then
`query('DELETE FROM integrations WHERE type = $1', ['shopify'])` inside
an inner try/catch (its thrown-error default is
`'Unknown database error'`).  `db` is the query outcome (`rowCount` of
the DELETE, or the thrown error). -/
def integrationsClearDELETE (adminPassword env : Option String) (nowIso : String)
    (exn : Option (Option String)) (db : Except (Option String) Nat) :
    Response × List String :=
  if passwordRejected adminPassword (jsOr env "admin123") then
    (unauthorizedResponse, [])
  else
    match exn with
    | some e => (catchResponse "Failed to clear integrations" e, [])
    | none =>
      match db with
      | .ok rowCount =>
        (⟨200, .jobj [("success", .jbool true),
          ("message", .jstr ("Shopify integrations cleared successfully. Removed " ++
            toString rowCount ++ " rows.")),
          ("timestamp", .jstr nowIso),
          ("rowCount", .jnum (Int.ofNat rowCount))]⟩,
         ["DELETE FROM integrations WHERE type = $1"])
      | .error e =>
        (⟨500, .jobj [("success", .jbool false),
          ("error", .jstr "Failed to clear Shopify integrations"),
          ("details", .jstr (e.getD "Unknown database error"))]⟩,
         ["DELETE FROM integrations WHERE type = $1"])

/-- Settled result of a `fetch` call: status, parsed JSON body (read in
the ok branch) and raw text (read in the failure branch). -/
structure FetchResp where
  status : Nat
  jsonB : JsonVal
  text : String

/-- DELETE handler of the vectordb clear route: password gate, then a
`fetch` of `DELETE ${coolerApiUrl}/admin/vector-db/clear-all` inside an
inner try/catch.  `fetch` is the outcome of that call. -/
def vectordbClearDELETE (adminPassword env : Option String) (nowIso : String)
    (exn : Option (Option String)) (fetch : Except (Option String) FetchResp) :
    Response :=
  if passwordRejected adminPassword (jsOr env "admin123") then
    unauthorizedResponse
  else
    match exn with
    | some e => catchResponse "Failed to clear VectorDB" e
    | none =>
      match fetch with
      | .error fe => catchResponse "Failed to call Cooler API" fe
      | .ok r =>
        if fetchOk r.status then
          ⟨200, .jobj [("success", .jbool true),
            ("message", .jstr "VectorDB cleared successfully"),
            ("timestamp", .jstr nowIso),
            ("apiResponse", r.jsonB)]⟩
        else
          ⟨r.status, .jobj [("success", .jbool false),
            ("error", .jstr ("API call failed: " ++ toString r.status)),
            ("details", .jstr r.text)]⟩

/-- Outcome of one sub-clear `fetch` of the clear-database route:
`.ok (status, errorText)` for a settled response (the text is read only
when the status is not ok), `.error e` for a thrown fetch error. -/
def SubClearOutcome : Type := Except (Option String) (Nat × String)

/-- Whether a sub-clear of the clear-database route succeeded
(`response.ok`). -/
def subClearOk : SubClearOutcome → Bool
  | .ok (st, _) => fetchOk st
  | .error _ => false

/-- The per-table entry the clear-database route stores in its `results`
record: `{ success, error }` with `error` null on success,
`status + ': ' + text` on a non-ok response and the exception message on
a thrown fetch. -/
def subClearEntry : SubClearOutcome → JsonVal
  | .ok (st, text) =>
    if fetchOk st then .jobj [("success", .jbool true), ("error", .jnull)]
    else .jobj [("success", .jbool false),
      ("error", .jstr (toString st ++ ": " ++ text))]
  | .error e => .jobj [("success", .jbool false), ("error", .jstr (jsErrMsg e))]

/-- POST handler of the clear-database route: password gate, then six
sequential sub-clear fetches (vectordb, transactions, transactionItems,
submissions, anomalies, integrations), each in its own try/catch, then
a 200 response aggregating the six results. -/
def clearDatabasePOST (adminPassword env : Option String)
    (exn : Option (Option String))
    (ov ot oti os oa oi : SubClearOutcome) : Response :=
  if passwordRejected adminPassword (jsOr env "admin123") then
    unauthorizedResponse
  else
    match exn with
    | some e => catchResponse "Failed to clear database" e
    | none =>
      let successCount := List.countP (fun o => subClearOk o) [ov, ot, oti, os, oa, oi]
      let totalCount := 6
      let overallSuccess := successCount == totalCount
      let message :=
        if overallSuccess then
          "Successfully cleared " ++ toString successCount ++ "/" ++
            toString totalCount ++ " database tables"
        else
          "Cleared " ++ toString successCount ++ "/" ++
            toString totalCount ++ " database tables with some errors"
      ⟨200, .jobj [("success", .jbool overallSuccess),
        ("message", .jstr message),
        ("results", .jobj [("vectordb", subClearEntry ov),
          ("transactions", subClearEntry ot),
          ("transactionItems", subClearEntry oti),
          ("submissions", subClearEntry os),
          ("anomalies", subClearEntry oa),
          ("integrations", subClearEntry oi)]),
        ("summary", .jobj [("cleared", .jnum (Int.ofNat successCount)),
          ("total", .jnum (Int.ofNat totalCount)),
          ("errors", .jnum (Int.ofNat (totalCount - successCount)))])]⟩

/-- GET handler of the api-requests route: a single upstream fetch (no
auth gate); the ok branch wraps the upstream JSON in
`{ success: true, data, timestamp }`, a non-ok branch mirrors the
upstream status. -/
def apiRequestsGET (nowIso : String) (exn : Option (Option String))
    (fetch : Except (Option String) FetchResp) : Response :=
  match exn with
  | some e => catchResponse "Failed to fetch API requests" e
  | none =>
    match fetch with
    | .error fe => catchResponse "Failed to fetch API requests" fe
    | .ok r =>
      if fetchOk r.status then
        ⟨200, .jobj [("success", .jbool true),
          ("data", r.jsonB),
          ("timestamp", .jstr nowIso)]⟩
      else
        ⟨r.status, .jobj [("success", .jbool false),
          ("error", .jstr ("Failed to fetch API requests: " ++ toString r.status)),
          ("details", .jstr r.text)]⟩

/-- One element of the upstream `recentTransactions` list consumed by
the transactions route (`/admin/customers/{userId}/database-counts`).
`itemCount` is optional: the route defaults it with `|| 0`. -/
structure UpTx where
  id : String
  dateCreated : String
  statusFootprint : String
  itemCount : Option Nat
  stripeUsageId : String

/-- The `counts` object of the upstream database-counts payload. -/
structure UpCounts where
  transactions : Option Nat

/-- Upstream database-counts payload: both parts may be absent
(the route guards with `|| []` and `?. || 0`). -/
structure UpData where
  recentTransactions : Option (List UpTx)
  counts : Option UpCounts

/-- Reshaping of one upstream transaction performed by the transactions
route: `{ id, dateCreated, status: tx.statusFootprint,
itemCount: tx.itemCount || 0, stripeUsageId }`. -/
def txJson (tx : UpTx) : JsonVal :=
  .jobj [("id", .jstr tx.id),
    ("dateCreated", .jstr tx.dateCreated),
    ("status", .jstr tx.statusFootprint),
    ("itemCount", .jnum (Int.ofNat (tx.itemCount.getD 0))),
    ("stripeUsageId", .jstr tx.stripeUsageId)]

/-- Settled upstream response of the transactions route: status, parsed
database-counts payload (ok branch) and raw text (failure branch). -/
structure TxFetchResp where
  status : Nat
  dataJ : UpData
  text : String

/-- GET handler of `src/app/api/transactions/[userId]/route.ts`: bearer
gate, `userId` presence check, one upstream fetch; the ok branch
reshapes the first 7 recent transactions. -/
def transactionsUserIdGET (authHeader : Option String) (userId : String)
    (nowIso : String) (exn : Option (Option String))
    (fetch : Except (Option String) TxFetchResp) : Response :=
  if bearerRejected authHeader then
    unauthorizedResponse
  else if userId.isEmpty then
    ⟨400, .jobj [("success", .jbool false), ("error", .jstr "userId is required")]⟩
  else
    match exn with
    | some e => catchResponse "Failed to fetch transactions" e
    | none =>
      match fetch with
      | .error fe => catchResponse "Failed to fetch transactions" fe
      | .ok r =>
        if fetchOk r.status then
          ⟨200, .jobj [("success", .jbool true),
            ("userId", .jstr userId),
            ("transactions",
              .jarr (((r.dataJ.recentTransactions.getD []).take 7).map txJson)),
            ("totalCount",
              .jnum (Int.ofNat (((r.dataJ.counts).bind UpCounts.transactions).getD 0))),
            ("timestamp", .jstr nowIso)]⟩
        else
          ⟨r.status, .jobj [("success", .jbool false),
            ("error", .jstr ("Failed to fetch transactions: " ++ toString r.status)),
            ("details", .jstr r.text)]⟩

/-- Payload signed into the impersonation JWT
(`src/app/api/impersonate/route.ts`). -/
structure JwtPayload where
  userId : String
  adminId : String
  readOnly : Bool
  expiresAt : String
  nonce : String
  iat : Nat

/-- POST handler of `src/app/api/impersonate/route.ts`.  Abstract
inputs stand for the ambient effects: `now` is `Date.now()` in
milliseconds, `nonce` is `crypto.randomUUID()`, `toISO` renders a
millisecond timestamp as `Date.toISOString()` would, and
`sign secret payload exp` is the jose `SignJWT` call with
`setExpirationTime(exp)`. -/
def impersonatePOST (authHeader : Option String) (userId : Option String)
    (now : Nat) (nonce : String) (secretEnv appUrlEnv : Option String)
    (toISO : Nat → String) (sign : String → JwtPayload → String → String)
    (exn : Option (Option String)) : Response :=
  if bearerRejected authHeader then
    unauthorizedResponse
  else
    match exn with
    | some e => catchResponse "Failed to generate magic link" e
    | none =>
      match userId with
      | none =>
        ⟨400, .jobj [("success", .jbool false), ("error", .jstr "userId is required")]⟩
      | some uid =>
        if uid.isEmpty then
          ⟨400, .jobj [("success", .jbool false), ("error", .jstr "userId is required")]⟩
        else
          let expiresAtStr := toISO (now + 5 * 60 * 1000)
          let payload : JwtPayload :=
            { userId := uid, adminId := "admin", readOnly := true,
              expiresAt := expiresAtStr, nonce := nonce, iat := now / 1000 }
          let secret := jsOr secretEnv "admin-secret-key-change-in-production"
          let token := sign secret payload "5m"
          let appUrl := jsOr appUrlEnv "https://app.cooler.dev"
          let magicLink :=
            appUrl ++ "/transactions?impersonate=" ++ uid ++ "&token=" ++ token
          ⟨200, .jobj [("success", .jbool true),
            ("magicLink", .jstr magicLink),
            ("token", .jstr token),
            ("expiresAt", .jstr expiresAtStr),
            ("message", .jstr "Magic link generated successfully")]⟩

/-- Resolution actions offered by `AnomalyProcessor`
(`src/components/AnomalyProcessor.tsx`). -/
inductive ResolutionAction where
  | UPDATE_SUBMISSION : ResolutionAction
  | UPDATE_NAICS_CODE : ResolutionAction
  | UPDATE_PRICE : ResolutionAction
  | MARK_RESOLVED : ResolutionAction

/-- The string value of a resolution action. -/
def actionStr : ResolutionAction → String
  | .UPDATE_SUBMISSION => "UPDATE_SUBMISSION"
  | .UPDATE_NAICS_CODE => "UPDATE_NAICS_CODE"
  | .UPDATE_PRICE => "UPDATE_PRICE"
  | .MARK_RESOLVED => "MARK_RESOLVED"

/-- The `submissionData` form state of `AnomalyProcessor` (the price,
a JavaScript number, is modelled as an integer: only the payload shape
matters to the claims). -/
structure SubmissionData where
  title : String
  manufacturer : String
  category : String
  description : String
  price : Int
  currency : String
  naicsCode : String

/-- JSON rendering of the `submissionData` object, field order as in
the component state initialiser. -/
def submissionDataJson (sd : SubmissionData) : JsonVal :=
  .jobj [("title", .jstr sd.title),
    ("manufacturer", .jstr sd.manufacturer),
    ("category", .jstr sd.category),
    ("description", .jstr sd.description),
    ("price", .jnum sd.price),
    ("currency", .jstr sd.currency),
    ("naicsCode", .jstr sd.naicsCode)]

/-- The action-specific fields `handleResolve` adds to its base
`{ action, notes }` payload. -/
def resolveExtraFields (action : ResolutionAction) (sd : SubmissionData) :
    List (String × JsonVal) :=
  match action with
  | .UPDATE_SUBMISSION => [("submissionData", submissionDataJson sd)]
  | .UPDATE_NAICS_CODE => [("naicsCode", .jstr sd.naicsCode)]
  | .UPDATE_PRICE => [("price", .jnum sd.price), ("currency", .jstr sd.currency)]
  | .MARK_RESOLVED => []

/-- The request payload `handleResolve` posts to
`${API_BASE_URL}/admin/anomalies/${anomaly.id}/resolve`: the base
`{ action, notes }` object extended with the action-specific fields. -/
def resolveRequestData (action : ResolutionAction) (notes : String)
    (sd : SubmissionData) : JsonVal :=
  .jobj ([("action", .jstr (actionStr action)), ("notes", .jstr notes)] ++
    resolveExtraFields action sd)

/-- The URL `handleResolve` posts to. -/
def resolveUrl (apiBaseUrl anomalyId : String) : String :=
  apiBaseUrl ++ "/admin/anomalies/" ++ anomalyId ++ "/resolve"

/-- Status filter of `ApiRequestsPage`
(union type `'all' | 'success' | 'error'`). -/
inductive StatusFilter where
  | all : StatusFilter
  | success : StatusFilter
  | error : StatusFilter

/-- Mutable component state of `ApiRequestsPage` (the api-requests
page in `src/app/api-requests/page.tsx`).  Request records are kept
abstract as JSON values. -/
structure ApiRequestsState where
  requests : List JsonVal
  loading : Bool
  errorMsg : Option String
  lastUpdated : Option Nat
  autoRefresh : Bool
  refreshInterval : Nat
  searchTerm : String
  statusFilter : StatusFilter
  endpointFilter : String
  userIdFilter : String
  selectedRequest : Option JsonVal
  isModalOpen : Bool

/-- Initial state of `ApiRequestsPage`: `useState` initialisers
(`autoRefresh` true, `refreshInterval` 5000, `userIdFilter` from the
URL params). -/
def initApiRequestsState (initialUserIdFilter : String) : ApiRequestsState :=
  { requests := [], loading := true, errorMsg := none, lastUpdated := none,
    autoRefresh := true, refreshInterval := 5000,
    searchTerm := "", statusFilter := .all, endpointFilter := "",
    userIdFilter := initialUserIdFilter,
    selectedRequest := none, isModalOpen := false }

/-- State-changing events of `ApiRequestsPage`: one constructor per
setter call site in the component (`setRefreshInterval` has no call
site, so no event touches the interval). -/
inductive PageEvent where
  | fetchSuccess : List JsonVal → Nat → PageEvent
  | fetchFailure : String → PageEvent
  | toggleAutoRefresh : PageEvent
  | changeSearchTerm : String → PageEvent
  | changeStatusFilter : StatusFilter → PageEvent
  | changeEndpointFilter : String → PageEvent
  | changeUserIdFilter : String → PageEvent
  | viewDetails : JsonVal → PageEvent
  | closeModal : PageEvent
  | filterByUser : String → PageEvent
  | filterByEndpoint : String → PageEvent

/-- State transition of `ApiRequestsPage`: the effect of each event's
setter calls. -/
def pageStep (s : ApiRequestsState) : PageEvent → ApiRequestsState
  | .fetchSuccess data t =>
      { s with errorMsg := none, requests := data, lastUpdated := some t, loading := false }
  | .fetchFailure msg =>
      { s with errorMsg := some msg, loading := false }
  | .toggleAutoRefresh => { s with autoRefresh := !s.autoRefresh }
  | .changeSearchTerm v => { s with searchTerm := v }
  | .changeStatusFilter f => { s with statusFilter := f }
  | .changeEndpointFilter v => { s with endpointFilter := v }
  | .changeUserIdFilter v => { s with userIdFilter := v }
  | .viewDetails r => { s with selectedRequest := some r, isModalOpen := true }
  | .closeModal => { s with isModalOpen := false, selectedRequest := none }
  | .filterByUser uid => { s with userIdFilter := uid, isModalOpen := false }
  | .filterByEndpoint ep => { s with endpointFilter := ep, isModalOpen := false }

/-- State reached by `ApiRequestsPage` after a sequence of events. -/
def pageRun (initialUserIdFilter : String) (evs : List PageEvent) : ApiRequestsState :=
  evs.foldl pageStep (initApiRequestsState initialUserIdFilter)

/-- The auto-refresh `useEffect`: when `autoRefresh` is off it schedules
nothing, otherwise it calls `setInterval(fetchApiRequests,
refreshInterval)`; the result is the scheduled interval in
milliseconds. -/
def scheduledInterval (s : ApiRequestsState) : Option Nat :=
  if s.autoRefresh then some s.refreshInterval else none

/-- Whether a response body is an object carrying a boolean `success`
field. -/
def hasBoolSuccess (r : Response) : Bool :=
  match r.body.getField "success" with
  | some (.jbool _) => true
  | _ => false

/-- Whether a response with `success: false` carries a string `error`
field (vacuously true for other responses). -/
def errorOnFailure (r : Response) : Bool :=
  match r.body.getField "success" with
  | some (.jbool false) =>
    (match r.body.getField "error" with
     | some (.jstr _) => true
     | _ => false)
  | _ => true

/-- JSON envelope check: a boolean `success` field, and a string
`error` field whenever `success` is false. -/
def envelopeOk (r : Response) : Bool :=
  hasBoolSuccess r && errorOnFailure r

/-- Weaker failure check for the clear-database aggregation response: a
`success: false` body carries either a string `error` field or an
object `summary` field. -/
def failureReported (r : Response) : Bool :=
  match r.body.getField "success" with
  | some (.jbool false) =>
    (match r.body.getField "error", r.body.getField "summary" with
     | some (.jstr _), _ => true
     | _, some (.jobj _) => true
     | _, _ => false)
  | _ => true

/-- Key-accumulation step of a JavaScript object built by repeated
property assignment: a key already present is kept in place, a new key
is appended. -/
def addKeyOnce (ks : List String) (n : String) : List String :=
  if n ∈ ks then ks else ks ++ [n]

/-! Helper lemmas. -/

lemma isEmpty_false_of_ne (s : String) (h : s ≠ "") : s.isEmpty = false := by
  cases hb : s.isEmpty
  · rfl
  · exact absurd ((String.isEmpty_iff s).mp hb) h

lemma passwordRejected_false_iff (hdr : Option String) (e : String) (he : e ≠ "") :
    passwordRejected hdr e = false ↔ hdr = some e := by
  cases hdr with
  | none => simp [passwordRejected]
  | some p =>
    simp only [passwordRejected, Bool.or_eq_false_iff, bne_eq_false_iff_eq,
      Option.some.injEq]
    constructor
    · rintro ⟨h1, h2⟩; exact h2
    · rintro rfl; exact ⟨isEmpty_false_of_ne _ he, rfl⟩

lemma passwordRejected_true_of (hdr : Option String) (e : String) (he : e ≠ "")
    (h : hdr = none ∨ hdr ≠ some e) : passwordRejected hdr e = true := by
  cases hb : passwordRejected hdr e
  · rcases h with h | h
    · subst h; simp [passwordRejected] at hb
    · exact absurd ((passwordRejected_false_iff hdr e he).mp hb) h
  · rfl

lemma jsOr_default_ne_empty (env : Option String) : jsOr env "admin123" ≠ "" := by
  cases env with
  | none => simp [jsOr]
  | some s =>
    by_cases hs : s.isEmpty
    · simp [jsOr, hs]
    · simp only [jsOr, hs, if_false]
      simpa [String.isEmpty_iff] using hs

lemma envelopeOk_tableClear (t n f c : String) (pw env : Option String) (iso : String)
    (exn : Option (Option String)) (db : Except (Option String) (Option Nat)) :
    envelopeOk (tableClearDELETE t n f c pw env iso exn db).1 = true := by
  unfold tableClearDELETE
  cases hpw : passwordRejected pw (jsOr env "admin123") <;>
    cases exn <;> cases db <;>
      simp [hpw, clearTable, envelopeOk, hasBoolSuccess, errorOnFailure,
        JsonVal.getField, lookupField, catchResponse, unauthorizedResponse]

lemma envelopeOk_integrationsClear (pw env : Option String) (iso : String)
    (exn : Option (Option String)) (db : Except (Option String) Nat) :
    envelopeOk (integrationsClearDELETE pw env iso exn db).1 = true := by
  unfold integrationsClearDELETE
  cases hpw : passwordRejected pw (jsOr env "admin123") <;>
    cases exn <;> cases db <;>
      simp [hpw, envelopeOk, hasBoolSuccess, errorOnFailure,
        JsonVal.getField, lookupField, catchResponse, unauthorizedResponse]

lemma envelopeOk_vectordbClear (pw env : Option String) (iso : String)
    (exn : Option (Option String)) (fetch : Except (Option String) FetchResp) :
    envelopeOk (vectordbClearDELETE pw env iso exn fetch) = true := by
  unfold vectordbClearDELETE
  cases hpw : passwordRejected pw (jsOr env "admin123") <;> cases exn <;> cases fetch
  all_goals
    simp [hpw, envelopeOk, hasBoolSuccess, errorOnFailure,
      JsonVal.getField, lookupField, catchResponse, unauthorizedResponse]
  all_goals
    rename_i r
    cases hok : fetchOk r.status <;>
      simp [hok, envelopeOk, hasBoolSuccess, errorOnFailure, JsonVal.getField, lookupField]

lemma envelopeOk_apiRequests (iso : String)
    (exn : Option (Option String)) (fetch : Except (Option String) FetchResp) :
    envelopeOk (apiRequestsGET iso exn fetch) = true := by
  unfold apiRequestsGET
  cases exn <;> cases fetch
  all_goals
    first
    | rfl
    | (rename_i r
       cases hok : fetchOk r.status <;>
         simp [hok, envelopeOk, hasBoolSuccess, errorOnFailure, JsonVal.getField, lookupField])

lemma envelopeOk_transactionsUserId (auth : Option String) (uid iso : String)
    (exn : Option (Option String)) (fetch : Except (Option String) TxFetchResp) :
    envelopeOk (transactionsUserIdGET auth uid iso exn fetch) = true := by
  unfold transactionsUserIdGET
  cases hb : bearerRejected auth <;> cases hu : uid.isEmpty <;> cases exn <;> cases fetch
  all_goals
    simp only [hb, hu, Bool.false_eq_true, if_false, if_true, Bool.true_eq_false]
  all_goals
    first
    | rfl
    | (rename_i r
       cases hok : fetchOk r.status <;>
         simp [hok, envelopeOk, hasBoolSuccess, errorOnFailure, JsonVal.getField, lookupField])

lemma envelopeOk_impersonate (auth : Option String) (userId : Option String)
    (now : Nat) (nonce : String) (secretEnv appUrlEnv : Option String)
    (toISO : Nat → String) (sign : String → JwtPayload → String → String)
    (exn : Option (Option String)) :
    envelopeOk (impersonatePOST auth userId now nonce secretEnv appUrlEnv toISO sign exn) = true := by
  unfold impersonatePOST
  cases hb : bearerRejected auth <;> cases exn <;> cases userId
  all_goals
    simp only [hb, Bool.false_eq_true, if_false, if_true, Bool.true_eq_false]
  all_goals
    first
    | rfl
    | (rename_i uid
       cases hu : uid.isEmpty <;>
         simp [hu, envelopeOk, hasBoolSuccess, errorOnFailure, JsonVal.getField, lookupField])

lemma hasBoolSuccess_clearDatabase (pw env : Option String)
    (exn : Option (Option String)) (ov ot oti os oa oi : SubClearOutcome) :
    hasBoolSuccess (clearDatabasePOST pw env exn ov ot oti os oa oi) = true := by
  unfold clearDatabasePOST
  cases hpw : passwordRejected pw (jsOr env "admin123") <;> cases exn <;>
    simp [hpw, hasBoolSuccess, JsonVal.getField, lookupField, catchResponse,
      unauthorizedResponse]

lemma failureReported_clearDatabase (pw env : Option String)
    (exn : Option (Option String)) (ov ot oti os oa oi : SubClearOutcome) :
    failureReported (clearDatabasePOST pw env exn ov ot oti os oa oi) = true := by
  unfold clearDatabasePOST
  cases hpw : passwordRejected pw (jsOr env "admin123") <;> cases exn <;>
    cases h6 : (List.countP (fun o => subClearOk o) [ov, ot, oti, os, oa, oi] == 6) <;>
      simp [hpw, h6, failureReported, JsonVal.getField, lookupField, catchResponse,
        unauthorizedResponse]

lemma tableClear_unauthorized (t n f c : String) (pw env : Option String) (iso : String)
    (exn : Option (Option String)) (db : Except (Option String) (Option Nat))
    (h : pw = none ∨ pw ≠ some (jsOr env "admin123")) :
    tableClearDELETE t n f c pw env iso exn db = (unauthorizedResponse, []) := by
  have hg := passwordRejected_true_of pw (jsOr env "admin123") (jsOr_default_ne_empty env) h
  simp [tableClearDELETE, hg]

lemma tableClear_ops_auth (t n f c : String) (pw env : Option String) (iso : String)
    (exn : Option (Option String)) (db : Except (Option String) (Option Nat))
    (h : (tableClearDELETE t n f c pw env iso exn db).2 ≠ []) :
    pw = some (jsOr env "admin123") := by
  cases hg : passwordRejected pw (jsOr env "admin123")
  · exact (passwordRejected_false_iff pw (jsOr env "admin123") (jsOr_default_ne_empty env)).mp hg
  · exact absurd (by simp [tableClearDELETE, hg]) h

lemma integrationsClear_unauthorized (pw env : Option String) (iso : String)
    (exn : Option (Option String)) (db : Except (Option String) Nat)
    (h : pw = none ∨ pw ≠ some (jsOr env "admin123")) :
    integrationsClearDELETE pw env iso exn db = (unauthorizedResponse, []) := by
  have hg := passwordRejected_true_of pw (jsOr env "admin123") (jsOr_default_ne_empty env) h
  simp [integrationsClearDELETE, hg]

lemma integrationsClear_ops_auth (pw env : Option String) (iso : String)
    (exn : Option (Option String)) (db : Except (Option String) Nat)
    (h : (integrationsClearDELETE pw env iso exn db).2 ≠ []) :
    pw = some (jsOr env "admin123") := by
  cases hg : passwordRejected pw (jsOr env "admin123")
  · exact (passwordRejected_false_iff pw (jsOr env "admin123") (jsOr_default_ne_empty env)).mp hg
  · exact absurd (by simp [integrationsClearDELETE, hg]) h

lemma countP_six_eq (b1 b2 b3 b4 b5 b6 : Bool) :
    (List.countP (fun b => b) [b1, b2, b3, b4, b5, b6] == 6) =
      (b1 && b2 && b3 && b4 && b5 && b6) := by
  cases b1 <;> cases b2 <;> cases b3 <;> cases b4 <;> cases b5 <;> cases b6 <;> decide

lemma countP_subClear_eq (ov ot oti os oa oi : SubClearOutcome) :
    (List.countP (fun o => subClearOk o) [ov, ot, oti, os, oa, oi] == 6) =
      (subClearOk ov && subClearOk ot && subClearOk oti && subClearOk os &&
        subClearOk oa && subClearOk oi) := by
  have h : List.countP (fun o => subClearOk o) [ov, ot, oti, os, oa, oi] =
      List.countP (fun b => b)
        [subClearOk ov, subClearOk ot, subClearOk oti, subClearOk os,
          subClearOk oa, subClearOk oi] := by
    simp [List.countP, List.countP.go]
  rw [h, countP_six_eq]

lemma pageStep_refreshInterval (s : ApiRequestsState) (e : PageEvent) :
    (pageStep s e).refreshInterval = s.refreshInterval := by
  cases e <;> rfl

lemma foldl_pageStep_refreshInterval (evs : List PageEvent) :
    ∀ s : ApiRequestsState, (evs.foldl pageStep s).refreshInterval = s.refreshInterval := by
  induction evs with
  | nil => intro s; rfl
  | cons e rest ih => intro s; rw [List.foldl_cons, ih, pageStep_refreshInterval]

lemma objSet_keys (m : List (String × ClearResult)) (k : String) (v : ClearResult) :
    (objSet m k v).map Prod.fst = addKeyOnce (m.map Prod.fst) k := by
  unfold objSet addKeyOnce
  by_cases h : k ∈ m.map Prod.fst
  · have hany : m.any (fun p => p.1 = k) = true := by
      rw [List.any_eq_true]
      rcases List.mem_map.mp h with ⟨p, hp, hpk⟩
      exact ⟨p, hp, by simp [hpk]⟩
    simp only [hany, if_true, h]
    rw [List.map_map]
    apply List.map_congr_left
    intro p hp
    by_cases hpk : p.1 = k
    · simp [hpk]
    · simp [hpk]
  · have hany : m.any (fun p => p.1 = k) = false := by
      rw [Bool.eq_false_iff]
      intro hc
      rcases List.any_eq_true.mp hc with ⟨p, hp, hpk⟩
      exact h (List.mem_map.mpr ⟨p, hp, by simpa using hpk⟩)
    simp [hany, h]

lemma clearTablesGo_keys (outcome : Nat → Except (Option String) (Option Nat)) :
    ∀ (names : List String) (i : Nat) (acc : List (String × ClearResult)),
      (clearTablesGo outcome i acc names).map Prod.fst =
        names.foldl addKeyOnce (acc.map Prod.fst) := by
  intro names
  induction names with
  | nil => intro i acc; rfl
  | cons n rest ih =>
    intro i acc
    rw [clearTablesGo, List.foldl_cons, ih, objSet_keys]

lemma foldl_addKeyOnce_mem (x : String) :
    ∀ (names : List String) (s : List String),
      (x ∈ names.foldl addKeyOnce s ↔ x ∈ s ∨ x ∈ names) := by
  intro names
  induction names with
  | nil => intro s; simp
  | cons n rest ih =>
    intro s
    rw [List.foldl_cons, ih]
    unfold addKeyOnce
    by_cases h : n ∈ s
    · rw [if_pos h]
      constructor
      · intro hx
        rcases hx with hx | hx
        · exact Or.inl hx
        · exact Or.inr (List.mem_cons_of_mem n hx)
      · intro hx
        rcases hx with hx | hx
        · exact Or.inl hx
        · rcases List.mem_cons.mp hx with rfl | hx2
          · exact Or.inl h
          · exact Or.inr hx2
    · rw [if_neg h]
      constructor
      · intro hx
        rcases hx with hx | hx
        · rcases List.mem_append.mp hx with hx1 | hx1
          · exact Or.inl hx1
          · have hxn := List.mem_singleton.mp hx1
            subst hxn
            exact Or.inr (List.mem_cons_self x rest)
        · exact Or.inr (List.mem_cons_of_mem n hx)
      · intro hx
        rcases hx with hx | hx
        · exact Or.inl (List.mem_append.mpr (Or.inl hx))
        · rcases List.mem_cons.mp hx with rfl | hx2
          · exact Or.inl (List.mem_append.mpr (Or.inr (List.mem_singleton.mpr rfl)))
          · exact Or.inr hx2

lemma foldl_addKeyOnce_nodup :
    ∀ (names : List String) (s : List String), s.Nodup → (names.foldl addKeyOnce s).Nodup := by
  intro names
  induction names with
  | nil => intro s hs; exact hs
  | cons n rest ih =>
    intro s hs
    rw [List.foldl_cons]
    apply ih
    unfold addKeyOnce
    by_cases h : n ∈ s
    · simp [h, hs]
    · simp [h, List.nodup_append, hs]

/-! Claim theorems. -/

/-- C1: for each of the five table-clearing routes (anomalies,
transactions, transaction-items, submissions, integrations), a request
whose admin-password header is absent or differs from the expected
password gets status 401 with body
`{ success: false, error: "Unauthorized" }` and no SQL statement is
issued; conversely a DELETE statement is issued only when the header
equals the expected password. -/
theorem c1_clear_routes_password_gate :
    (∀ (pw env : Option String) (iso : String) (exn : Option (Option String))
       (db : Except (Option String) (Option Nat)) (dbI : Except (Option String) Nat),
       pw = none ∨ pw ≠ some (jsOr env "admin123") →
       anomaliesClearDELETE pw env iso exn db = (unauthorizedResponse, []) ∧
       transactionsClearDELETE pw env iso exn db = (unauthorizedResponse, []) ∧
       transactionItemsClearDELETE pw env iso exn db = (unauthorizedResponse, []) ∧
       submissionsClearDELETE pw env iso exn db = (unauthorizedResponse, []) ∧
       integrationsClearDELETE pw env iso exn dbI = (unauthorizedResponse, [])) ∧
    (∀ (pw env : Option String) (iso : String) (exn : Option (Option String))
       (db : Except (Option String) (Option Nat)) (dbI : Except (Option String) Nat),
       ((anomaliesClearDELETE pw env iso exn db).2 ≠ [] →
         pw = some (jsOr env "admin123")) ∧
       ((transactionsClearDELETE pw env iso exn db).2 ≠ [] →
         pw = some (jsOr env "admin123")) ∧
       ((transactionItemsClearDELETE pw env iso exn db).2 ≠ [] →
         pw = some (jsOr env "admin123")) ∧
       ((submissionsClearDELETE pw env iso exn db).2 ≠ [] →
         pw = some (jsOr env "admin123")) ∧
       ((integrationsClearDELETE pw env iso exn dbI).2 ≠ [] →
         pw = some (jsOr env "admin123"))) := by
  constructor
  · intro pw env iso exn db dbI h
    exact ⟨tableClear_unauthorized _ _ _ _ pw env iso exn db h,
      tableClear_unauthorized _ _ _ _ pw env iso exn db h,
      tableClear_unauthorized _ _ _ _ pw env iso exn db h,
      tableClear_unauthorized _ _ _ _ pw env iso exn db h,
      integrationsClear_unauthorized pw env iso exn dbI h⟩
  · intro pw env iso exn db dbI
    exact ⟨tableClear_ops_auth _ _ _ _ pw env iso exn db,
      tableClear_ops_auth _ _ _ _ pw env iso exn db,
      tableClear_ops_auth _ _ _ _ pw env iso exn db,
      tableClear_ops_auth _ _ _ _ pw env iso exn db,
      integrationsClear_ops_auth pw env iso exn dbI⟩

/-- Witness for C1 at a concrete unauthorized request (header absent). -/
theorem c1_clear_routes_password_gate_witness :
    anomaliesClearDELETE none none "2024-01-01T00:00:00.000Z" none (.ok (some 3)) =
      (unauthorizedResponse, []) ∧
    integrationsClearDELETE none none "2024-01-01T00:00:00.000Z" none (.ok 3) =
      (unauthorizedResponse, []) := by
  have h := c1_clear_routes_password_gate.1 none none "2024-01-01T00:00:00.000Z" none
    (.ok (some 3)) (.ok 3) (Or.inl rfl)
  exact ⟨h.1, h.2.2.2.2⟩

/-- C2: the clear-database handler attempts all six per-table clears
(each entry of `results` reflects its own outcome, regardless of the
others), returns `success: true` exactly when all six succeeded, and
reports `summary.cleared` = number of successful clears,
`summary.total` = 6 and `summary.errors` = total - cleared. -/
theorem c2_clear_database_summary :
    ∀ (pw env : Option String) (ov ot oti os oa oi : SubClearOutcome),
      pw = some (jsOr env "admin123") →
      (clearDatabasePOST pw env none ov ot oti os oa oi).status = 200 ∧
      (clearDatabasePOST pw env none ov ot oti os oa oi).body.getField "success" =
        some (.jbool (subClearOk ov && subClearOk ot && subClearOk oti &&
          subClearOk os && subClearOk oa && subClearOk oi)) ∧
      (clearDatabasePOST pw env none ov ot oti os oa oi).body.getField "results" =
        some (.jobj [("vectordb", subClearEntry ov), ("transactions", subClearEntry ot),
          ("transactionItems", subClearEntry oti), ("submissions", subClearEntry os),
          ("anomalies", subClearEntry oa), ("integrations", subClearEntry oi)]) ∧
      (clearDatabasePOST pw env none ov ot oti os oa oi).body.getField "summary" =
        some (.jobj [("cleared", .jnum (Int.ofNat
            (List.countP (fun o => subClearOk o) [ov, ot, oti, os, oa, oi]))),
          ("total", .jnum 6),
          ("errors", .jnum (Int.ofNat
            (6 - List.countP (fun o => subClearOk o) [ov, ot, oti, os, oa, oi])))]) := by
  intro pw env ov ot oti os oa oi h
  subst h
  have hg : passwordRejected (some (jsOr env "admin123")) (jsOr env "admin123") = false :=
    (passwordRejected_false_iff _ _ (jsOr_default_ne_empty env)).mpr rfl
  refine ⟨?_, ?_, ?_, ?_⟩ <;>
    simp [clearDatabasePOST, hg, JsonVal.getField, lookupField, countP_subClear_eq]

/-- Witness for C2 at a concrete authorized request with one failed
sub-clear: the aggregate succeeds on 5 of 6 tables. -/
theorem c2_clear_database_summary_witness :
    (clearDatabasePOST (some "admin123") none none (.ok (200, "")) (.ok (200, ""))
      (.ok (500, "boom")) (.ok (200, "")) (.ok (200, "")) (.ok (200, ""))).body.getField
        "success" = some (.jbool false) ∧
    (clearDatabasePOST (some "admin123") none none (.ok (200, "")) (.ok (200, ""))
      (.ok (500, "boom")) (.ok (200, "")) (.ok (200, "")) (.ok (200, ""))).status = 200 := by
  have h := c2_clear_database_summary (some "admin123") none (.ok (200, "")) (.ok (200, ""))
    (.ok (500, "boom")) (.ok (200, "")) (.ok (200, "")) (.ok (200, "")) rfl
  exact ⟨h.2.1, h.1⟩

/-- C5: the payload `handleResolve` sends has exactly the shape
determined by the selected action: MARK_RESOLVED sends action and notes
only; UPDATE_SUBMISSION additionally sends submissionData;
UPDATE_NAICS_CODE additionally sends naicsCode; UPDATE_PRICE
additionally sends price and currency. -/
theorem c5_resolve_payload_shape :
    ∀ (notes : String) (sd : SubmissionData),
      resolveRequestData .MARK_RESOLVED notes sd =
        .jobj [("action", .jstr "MARK_RESOLVED"), ("notes", .jstr notes)] ∧
      resolveRequestData .UPDATE_SUBMISSION notes sd =
        .jobj [("action", .jstr "UPDATE_SUBMISSION"), ("notes", .jstr notes),
          ("submissionData", submissionDataJson sd)] ∧
      resolveRequestData .UPDATE_NAICS_CODE notes sd =
        .jobj [("action", .jstr "UPDATE_NAICS_CODE"), ("notes", .jstr notes),
          ("naicsCode", .jstr sd.naicsCode)] ∧
      resolveRequestData .UPDATE_PRICE notes sd =
        .jobj [("action", .jstr "UPDATE_PRICE"), ("notes", .jstr notes),
          ("price", .jnum sd.price), ("currency", .jstr sd.currency)] :=
  fun _ _ => ⟨rfl, rfl, rfl, rfl⟩

/-- C7: the Postgres connection pool is configured with max 20 clients,
30000 ms idle timeout and 2000 ms connection timeout. -/
theorem c7_pool_configuration :
    pool.max = 20 ∧ pool.idleTimeoutMillis = 30000 ∧
      pool.connectionTimeoutMillis = 2000 :=
  ⟨rfl, rfl, rfl⟩

/-- C8: in every state the api-requests page can reach, the refresh
interval is 5000 ms, and the auto-refresh effect schedules the fetch
with interval 5000 exactly when auto-refresh is enabled (no code path
ever changes the interval). -/
theorem c8_poll_interval_fixed_5s :
    ∀ (u : String) (evs : List PageEvent),
      (pageRun u evs).refreshInterval = 5000 ∧
      scheduledInterval (pageRun u evs) =
        (if (pageRun u evs).autoRefresh then some 5000 else none) := by
  intro u evs
  have h : (pageRun u evs).refreshInterval = 5000 :=
    foldl_pageStep_refreshInterval evs (initApiRequestsState u)
  exact ⟨h, by rw [scheduledInterval, h]⟩

/-- C10: `clearTable` never throws: a settled query yields
`{ success: true, rowCount (defaulted to 0), error: none }` and a
failed query yields `{ success: false, rowCount: 0, error: message }`;
and for every input, `clearTables` returns exactly one entry per
requested table name (its key list covers the requested names and has
no duplicates), however many clears fail. -/
theorem c10_clear_table_and_tables :
    (∀ (n : String) (rc : Option Nat),
      clearTable n (.ok rc) = { success := true, rowCount := rc.getD 0, error := none }) ∧
    (∀ (n : String) (e : Option String),
      clearTable n (.error e) =
        { success := false, rowCount := 0, error := some (jsErrMsg e) }) ∧
    (∀ (names : List String) (outcome : Nat → Except (Option String) (Option Nat))
       (x : String),
      x ∈ (clearTables names outcome).map Prod.fst ↔ x ∈ names) ∧
    (∀ (names : List String) (outcome : Nat → Except (Option String) (Option Nat)),
      ((clearTables names outcome).map Prod.fst).Nodup) := by
  refine ⟨fun n rc => rfl, fun n e => rfl, ?_, ?_⟩
  · intro names outcome x
    rw [clearTables, clearTablesGo_keys outcome names 0 []]
    rw [foldl_addKeyOnce_mem x names]
    simp
  · intro names outcome
    rw [clearTables, clearTablesGo_keys outcome names 0 []]
    exact foldl_addKeyOnce_nodup names _ List.nodup_nil

/-- C4: for every successful impersonate request, the returned
expiresAt is the creation time plus exactly 5 minutes, the token is
signed with expiration time set to 5 minutes, and the magic link embeds
the target userId and the signed token. -/
theorem c4_impersonate_magic_link :
    ∀ (authHeader : Option String) (uid : String) (now : Nat) (nonce : String)
      (secretEnv appUrlEnv : Option String) (toISO : Nat → String)
      (sign : String → JwtPayload → String → String),
      authHeader = some "Bearer Bearit01!" → uid ≠ "" →
      (impersonatePOST authHeader (some uid) now nonce secretEnv appUrlEnv
        toISO sign none).status = 200 ∧
      (impersonatePOST authHeader (some uid) now nonce secretEnv appUrlEnv
        toISO sign none).body.getField "expiresAt" =
        some (.jstr (toISO (now + 5 * 60 * 1000))) ∧
      (impersonatePOST authHeader (some uid) now nonce secretEnv appUrlEnv
        toISO sign none).body.getField "token" =
        some (.jstr (sign (jsOr secretEnv "admin-secret-key-change-in-production")
          { userId := uid, adminId := "admin", readOnly := true,
            expiresAt := toISO (now + 5 * 60 * 1000), nonce := nonce,
            iat := now / 1000 } "5m")) ∧
      (impersonatePOST authHeader (some uid) now nonce secretEnv appUrlEnv
        toISO sign none).body.getField "magicLink" =
        some (.jstr (jsOr appUrlEnv "https://app.cooler.dev" ++
          "/transactions?impersonate=" ++ uid ++ "&token=" ++
          sign (jsOr secretEnv "admin-secret-key-change-in-production")
            { userId := uid, adminId := "admin", readOnly := true,
              expiresAt := toISO (now + 5 * 60 * 1000), nonce := nonce,
              iat := now / 1000 } "5m")) := by
  intro authHeader uid now nonce secretEnv appUrlEnv toISO sign ha hu
  subst ha
  have hue : uid.isEmpty = false := isEmpty_false_of_ne uid hu
  have hb : bearerRejected (some "Bearer Bearit01!") = false := rfl
  refine ⟨?_, ?_, ?_, ?_⟩ <;>
    (simp only [impersonatePOST, hb, hue, Bool.false_eq_true, if_false, if_true]; try rfl)

/-- Witness for C4 at a concrete authorized request. -/
theorem c4_impersonate_magic_link_witness :
    (impersonatePOST (some "Bearer Bearit01!") (some "user-42") 1000000 "nonce-1"
      none none (fun t => toString t) (fun s _ e => s ++ ":" ++ e)
      none).body.getField "magicLink" =
      some (.jstr ("https://app.cooler.dev/transactions?impersonate=user-42&token=" ++
        "admin-secret-key-change-in-production:5m")) := by
  have h := c4_impersonate_magic_link (some "Bearer Bearit01!") "user-42" 1000000 "nonce-1"
    none none (fun t => toString t) (fun s _ e => s ++ ":" ++ e) rfl (by decide)
  exact h.2.2.2

/-- C9: a successful transactions GET returns at most the first 7
upstream recent transactions, in upstream order, each reshaped to
id/dateCreated/status/itemCount (defaulted to 0)/stripeUsageId, and a
totalCount equal to the upstream counts.transactions (0 when absent). -/
theorem c9_transactions_reshape :
    ∀ (authHeader : Option String) (uid iso : String) (r : TxFetchResp),
      authHeader = some "Bearer Bearit01!" → uid ≠ "" → fetchOk r.status = true →
      (transactionsUserIdGET authHeader uid iso none (.ok r)).status = 200 ∧
      (transactionsUserIdGET authHeader uid iso none (.ok r)).body.getField
        "transactions" =
        some (.jarr (((r.dataJ.recentTransactions.getD []).take 7).map txJson)) ∧
      (((r.dataJ.recentTransactions.getD []).take 7).map txJson).length ≤ 7 ∧
      (transactionsUserIdGET authHeader uid iso none (.ok r)).body.getField
        "totalCount" =
        some (.jnum (Int.ofNat (((r.dataJ.counts).bind UpCounts.transactions).getD 0))) := by
  intro authHeader uid iso r ha hu hok
  subst ha
  have hue : uid.isEmpty = false := isEmpty_false_of_ne uid hu
  have hb : bearerRejected (some "Bearer Bearit01!") = false := rfl
  refine ⟨?_, ?_, ?_, ?_⟩
  · simp only [transactionsUserIdGET, hb, hue, hok, Bool.false_eq_true, if_false, if_true]
  · simp only [transactionsUserIdGET, hb, hue, hok, Bool.false_eq_true, if_false, if_true]
    rfl
  · rw [List.length_map]
    simp only [List.length_take]
    omega
  · simp only [transactionsUserIdGET, hb, hue, hok, Bool.false_eq_true, if_false, if_true]
    rfl

/-- Witness for C9 at a concrete upstream payload with 2 transactions
and a counts object. -/
theorem c9_transactions_reshape_witness :
    (transactionsUserIdGET (some "Bearer Bearit01!") "user-7" "2024-01-01T00:00:00.000Z"
      none (.ok ⟨200, ⟨some [⟨"tx-1", "d1", "COMPLETE", some 2, "su-1"⟩,
        ⟨"tx-2", "d2", "PENDING", none, "su-2"⟩], some ⟨some 9⟩⟩,
        ""⟩)).body.getField "transactions" =
      some (.jarr [
        .jobj [("id", .jstr "tx-1"), ("dateCreated", .jstr "d1"),
          ("status", .jstr "COMPLETE"), ("itemCount", .jnum 2),
          ("stripeUsageId", .jstr "su-1")],
        .jobj [("id", .jstr "tx-2"), ("dateCreated", .jstr "d2"),
          ("status", .jstr "PENDING"), ("itemCount", .jnum 0),
          ("stripeUsageId", .jstr "su-2")]]) := by
  have h := c9_transactions_reshape (some "Bearer Bearit01!") "user-7"
    "2024-01-01T00:00:00.000Z"
    ⟨200, ⟨some [⟨"tx-1", "d1", "COMPLETE", some 2, "su-1"⟩,
      ⟨"tx-2", "d2", "PENDING", none, "su-2"⟩], some ⟨some 9⟩⟩, ""⟩
    rfl (by decide) rfl
  exact h.2.1

/-- C6 counterexample: an authorized anomalies-clear success response
has `success: true` but no `data` field (its payload is
message/timestamp/rowCount), so not every success envelope carries
`data`. -/
theorem c6_envelope_counterexample :
    (anomaliesClearDELETE (some "admin123") none "2024-01-01T00:00:00.000Z" none
      (.ok (some 3))).1.body.getField "success" = some (.jbool true) ∧
    (anomaliesClearDELETE (some "admin123") none "2024-01-01T00:00:00.000Z" none
      (.ok (some 3))).1.body.getField "data" = none :=
  ⟨rfl, rfl⟩

/-- C6 (amended): every response of every browser-facing route carries
a boolean `success` field; every `success: false` response carries a
string `error` field, except the clear-database aggregation response,
which still carries a boolean `success` and reports failures through
its `summary` (and `results`) fields; `success: true` responses carry
route-specific payload fields (a `data` field in the api-requests
route) rather than uniformly a `data` field. -/
theorem c6_envelope_amended :
    (∀ (pw env : Option String) (iso : String) (exn : Option (Option String))
       (db : Except (Option String) (Option Nat)),
      envelopeOk (anomaliesClearDELETE pw env iso exn db).1 = true ∧
      envelopeOk (transactionsClearDELETE pw env iso exn db).1 = true ∧
      envelopeOk (transactionItemsClearDELETE pw env iso exn db).1 = true ∧
      envelopeOk (submissionsClearDELETE pw env iso exn db).1 = true) ∧
    (∀ (pw env : Option String) (iso : String) (exn : Option (Option String))
       (dbI : Except (Option String) Nat),
      envelopeOk (integrationsClearDELETE pw env iso exn dbI).1 = true) ∧
    (∀ (pw env : Option String) (iso : String) (exn : Option (Option String))
       (fetch : Except (Option String) FetchResp),
      envelopeOk (vectordbClearDELETE pw env iso exn fetch) = true) ∧
    (∀ (iso : String) (exn : Option (Option String))
       (fetch : Except (Option String) FetchResp),
      envelopeOk (apiRequestsGET iso exn fetch) = true) ∧
    (∀ (auth : Option String) (uid iso : String) (exn : Option (Option String))
       (fetch : Except (Option String) TxFetchResp),
      envelopeOk (transactionsUserIdGET auth uid iso exn fetch) = true) ∧
    (∀ (auth : Option String) (u : Option String) (now : Nat) (nonce : String)
       (se ae : Option String) (toISO : Nat → String)
       (sign : String → JwtPayload → String → String) (exn : Option (Option String)),
      envelopeOk (impersonatePOST auth u now nonce se ae toISO sign exn) = true) ∧
    (∀ (pw env : Option String) (exn : Option (Option String))
       (ov ot oti os oa oi : SubClearOutcome),
      hasBoolSuccess (clearDatabasePOST pw env exn ov ot oti os oa oi) = true ∧
      failureReported (clearDatabasePOST pw env exn ov ot oti os oa oi) = true) := by
  refine ⟨?_, ?_, ?_, ?_, ?_, ?_, ?_⟩
  · intro pw env iso exn db
    exact ⟨envelopeOk_tableClear _ _ _ _ pw env iso exn db,
      envelopeOk_tableClear _ _ _ _ pw env iso exn db,
      envelopeOk_tableClear _ _ _ _ pw env iso exn db,
      envelopeOk_tableClear _ _ _ _ pw env iso exn db⟩
  · exact envelopeOk_integrationsClear
  · exact envelopeOk_vectordbClear
  · exact envelopeOk_apiRequests
  · exact envelopeOk_transactionsUserId
  · exact envelopeOk_impersonate
  · intro pw env exn ov ot oti os oa oi
    exact ⟨hasBoolSuccess_clearDatabase pw env exn ov ot oti os oa oi,
      failureReported_clearDatabase pw env exn ov ot oti os oa oi⟩

/-- C3 counterexample: an authorized clear-database request whose six
sub-clear calls all fail upstream with status 503 still returns HTTP
200 (the aggregation response), not the upstream status. -/
theorem c3_status_counterexample :
    (clearDatabasePOST (some "admin123") none none (.ok (503, "Service Unavailable"))
      (.ok (503, "Service Unavailable")) (.ok (503, "Service Unavailable"))
      (.ok (503, "Service Unavailable")) (.ok (503, "Service Unavailable"))
      (.ok (503, "Service Unavailable"))).status = 200 ∧
    ¬ ((clearDatabasePOST (some "admin123") none none (.ok (503, "Service Unavailable"))
      (.ok (503, "Service Unavailable")) (.ok (503, "Service Unavailable"))
      (.ok (503, "Service Unavailable")) (.ok (503, "Service Unavailable"))
      (.ok (503, "Service Unavailable"))).status = 503) :=
  ⟨rfl, by decide⟩

/-- C3 (amended): when an unexpected exception is thrown inside a
handler (past its auth gate where one exists), the response is the
handler's catch response - status 500 with
`{ success: false, error, details }`; when the single upstream call of
the vectordb-clear, api-requests or transactions route fails with a
non-ok status, the returned status equals the upstream status; the
clear-database aggregator instead always returns 200 on the
aggregation path and reports per-table failures in its body. -/
theorem c3_error_handling_amended :
    (∀ (pw env : Option String) (iso : String) (e : Option String)
       (db : Except (Option String) (Option Nat)),
      pw = some (jsOr env "admin123") →
      anomaliesClearDELETE pw env iso (some e) db =
        (catchResponse "Failed to clear anomalies" e, []) ∧
      transactionsClearDELETE pw env iso (some e) db =
        (catchResponse "Failed to clear transactions" e, []) ∧
      transactionItemsClearDELETE pw env iso (some e) db =
        (catchResponse "Failed to clear transaction items" e, []) ∧
      submissionsClearDELETE pw env iso (some e) db =
        (catchResponse "Failed to clear submissions" e, [])) ∧
    (∀ (pw env : Option String) (iso : String) (e : Option String)
       (dbI : Except (Option String) Nat),
      pw = some (jsOr env "admin123") →
      integrationsClearDELETE pw env iso (some e) dbI =
        (catchResponse "Failed to clear integrations" e, [])) ∧
    (∀ (pw env : Option String) (iso : String) (e : Option String)
       (fetch : Except (Option String) FetchResp),
      pw = some (jsOr env "admin123") →
      vectordbClearDELETE pw env iso (some e) fetch =
        catchResponse "Failed to clear VectorDB" e) ∧
    (∀ (pw env : Option String) (e : Option String)
       (ov ot oti os oa oi : SubClearOutcome),
      pw = some (jsOr env "admin123") →
      clearDatabasePOST pw env (some e) ov ot oti os oa oi =
        catchResponse "Failed to clear database" e) ∧
    (∀ (iso : String) (e : Option String) (fetch : Except (Option String) FetchResp),
      apiRequestsGET iso (some e) fetch =
        catchResponse "Failed to fetch API requests" e) ∧
    (∀ (auth : Option String) (uid iso : String) (e : Option String)
       (fetch : Except (Option String) TxFetchResp),
      auth = some "Bearer Bearit01!" → uid ≠ "" →
      transactionsUserIdGET auth uid iso (some e) fetch =
        catchResponse "Failed to fetch transactions" e) ∧
    (∀ (auth : Option String) (u : Option String) (now : Nat) (nonce : String)
       (se ae : Option String) (toISO : Nat → String)
       (sign : String → JwtPayload → String → String) (e : Option String),
      auth = some "Bearer Bearit01!" →
      impersonatePOST auth u now nonce se ae toISO sign (some e) =
        catchResponse "Failed to generate magic link" e) ∧
    (∀ (pw env : Option String) (iso : String) (r : FetchResp),
      pw = some (jsOr env "admin123") → fetchOk r.status = false →
      (vectordbClearDELETE pw env iso none (.ok r)).status = r.status) ∧
    (∀ (iso : String) (r : FetchResp),
      fetchOk r.status = false →
      (apiRequestsGET iso none (.ok r)).status = r.status) ∧
    (∀ (auth : Option String) (uid iso : String) (r : TxFetchResp),
      auth = some "Bearer Bearit01!" → uid ≠ "" → fetchOk r.status = false →
      (transactionsUserIdGET auth uid iso none (.ok r)).status = r.status) ∧
    (∀ (pw env : Option String) (ov ot oti os oa oi : SubClearOutcome),
      pw = some (jsOr env "admin123") →
      (clearDatabasePOST pw env none ov ot oti os oa oi).status = 200) := by
  have hgate : ∀ env : Option String,
      passwordRejected (some (jsOr env "admin123")) (jsOr env "admin123") = false :=
    fun env => (passwordRejected_false_iff _ _ (jsOr_default_ne_empty env)).mpr rfl
  refine ⟨?_, ?_, ?_, ?_, ?_, ?_, ?_, ?_, ?_, ?_, ?_⟩
  · intro pw env iso e db h
    subst h
    refine ⟨?_, ?_, ?_, ?_⟩ <;>
      simp [anomaliesClearDELETE, transactionsClearDELETE, transactionItemsClearDELETE,
        submissionsClearDELETE, tableClearDELETE, hgate env]
  · intro pw env iso e dbI h
    subst h
    simp [integrationsClearDELETE, hgate env]
  · intro pw env iso e fetch h
    subst h
    simp [vectordbClearDELETE, hgate env]
  · intro pw env e ov ot oti os oa oi h
    subst h
    simp [clearDatabasePOST, hgate env]
  · intro iso e fetch
    rfl
  · intro auth uid iso e fetch ha hu
    subst ha
    have hue : uid.isEmpty = false := isEmpty_false_of_ne uid hu
    simp only [transactionsUserIdGET, hue, Bool.false_eq_true, if_false, if_true]
    rfl
  · intro auth u now nonce se ae toISO sign e ha
    subst ha
    rfl
  · intro pw env iso r h hok
    subst h
    simp [vectordbClearDELETE, hgate env, hok]
  · intro iso r hok
    simp [apiRequestsGET, hok]
  · intro auth uid iso r ha hu hok
    subst ha
    have hue : uid.isEmpty = false := isEmpty_false_of_ne uid hu
    simp only [transactionsUserIdGET, hue, hok, Bool.false_eq_true, if_false, if_true]
    rfl
  · intro pw env ov ot oti os oa oi h
    subst h
    simp [clearDatabasePOST, hgate env]

/-- Witness for C3 (amended) at concrete inputs: a thrown exception in
the api-requests handler yields its catch response, and a 503 upstream
failure there is mirrored. -/
theorem c3_error_handling_amended_witness :
    apiRequestsGET "2024-01-01T00:00:00.000Z" (some (some "boom")) (.ok ⟨200, .jnull, ""⟩) =
      catchResponse "Failed to fetch API requests" (some "boom") ∧
    (apiRequestsGET "2024-01-01T00:00:00.000Z" none (.ok ⟨503, .jnull, "down"⟩)).status = 503 := by
  constructor
  · exact c3_error_handling_amended.2.2.2.2.1 "2024-01-01T00:00:00.000Z" (some "boom")
      (.ok ⟨200, .jnull, ""⟩)
  · exact c3_error_handling_amended.2.2.2.2.2.2.2.2.1 "2024-01-01T00:00:00.000Z"
      ⟨503, .jnull, "down"⟩ rfl
